import Mathlib

/-!
Formal model of the video-thumbnail generator Lambda (src/index.js).

The handler orchestrates, inside one try/catch: parse the request body
(JSON.parse when it is a string), validate `bucket`/`filepath`, fetch the
video from the object store, stage it under a fixed temporary path, invoke
the decoding tool to write one JPEG frame, upload it under a derived key,
unlink the two staged files, and return a 200 response; the catch block
performs guarded cleanup and returns a 500 response built from the error.

External collaborators (JSON.parse, the object store, ffmpeg/ffprobe, the
filesystem) are modelled as oracles in an `Env` record plus an explicit
handler state `HState` (staged files, performed operations, store
contents).  JS numbers are modelled as rationals.
-/

/-- A thrown JS `Error`: its `message` and `stack` (read by the catch
block at src/index.js lines 221-222). -/
structure JsError where
  message : String
  stack : String
  deriving Repr, DecidableEq

/-- The parsed request-body shape destructured at src/index.js line 108:
`const { bucket, filepath } = body`.  `none` models an absent
(`undefined`) field. -/
structure ReqBody where
  bucket : Option String
  filepath : Option String
  deriving Repr, DecidableEq

/-- `event.body` as the handler receives it (line 105): absent, a raw
string that still needs `JSON.parse`, or an already parsed structure. -/
inductive EventBody where
  | missing
  | str (s : String)
  | obj (b : ReqBody)
  deriving Repr, DecidableEq

/-- JS truthiness test `!x` for the destructured string fields at
line 111: an absent field or the empty string is falsy. -/
def falsy : Option String → Bool
  | none => true
  | some s => s == ""

/-- Staging root: `/tmp` in the managed (Lambda) environment
(src/index.js line 16; the local fallback differs only in the path
value, which no claim depends on). -/
def tmpDir : String := "/tmp"

/-- `path.join(tmpDir, 'input.mp4')` (line 116). -/
def tmpVideoPath : String := tmpDir ++ "/input.mp4"

/-- `path.join(tmpDir, 'thumbnail.jpg')` (line 117). -/
def tmpThumbnailPath : String := tmpDir ++ "/thumbnail.jpg"

/-- The observable operations issued against the object store and the
video-decoding tool during one invocation. -/
inductive Op where
  | getObj (bucket key : String)
  | putObj (bucket key contentType : String)
  | probe (path : String)
  | extractFrame (path timestamp size : String)
  deriving Repr, DecidableEq

/-- Handler-visible world state: the set of staged files (as a list of
paths), the operations performed so far, and the object-store contents
as (bucket, key, contentType) records. -/
structure HState where
  fs : List String
  ops : List Op
  store : List (String × String × String)
  deriving Repr, DecidableEq

/-- Creating a staged file (`fs.createWriteStream` / a tool writing its
output): set-like insertion. -/
def fsAddL (p : String) (fs : List String) : List String :=
  if p ∈ fs then fs else fs ++ [p]

/-- Deleting a file removes every trace of that path. -/
def fsRemoveL (p : String) (fs : List String) : List String :=
  fs.filter (fun q => q != p)

/-- The error `fs.unlinkSync` throws on a missing file. -/
def enoentError (p : String) : JsError :=
  ⟨"ENOENT: no such file or directory, unlink " ++ p, "Error: ENOENT"⟩

/-- `fs.unlinkSync p`: deletes the file, or throws ENOENT when it does
not exist (relevant to the unguarded unlinks at lines 182-183). -/
def unlinkSyncL (p : String) (fs : List String) : Except JsError (List String) :=
  if p ∈ fs then .ok (fsRemoveL p fs) else .error (enoentError p)

/-- `PutObject` semantics on the modelled store: replace any record under
the same (bucket, key) and append the new one. -/
def storePut (bucket key contentType : String) (store : List (String × String × String)) :
    List (String × String × String) :=
  store.filter (fun e => !(e.1 == bucket && e.2.1 == key)) ++ [(bucket, key, contentType)]

/-- Look up the content type stored under (bucket, key), if any. -/
def storeGet (bucket key : String) (store : List (String × String × String)) :
    Option String :=
  (store.filter (fun e => e.1 == bucket && e.2.1 == key)).head?.map (fun e => e.2.2)

/-- The catch-block cleanup (src/index.js lines 203-211): each staged
path is `existsSync`-guarded before `unlinkSync`, so a missing file is
skipped; the surrounding try/catch makes the whole step total. -/
def cleanupTmp (st : HState) : HState :=
  let fs1 := if tmpVideoPath ∈ st.fs then fsRemoveL tmpVideoPath st.fs else st.fs
  let fs2 := if tmpThumbnailPath ∈ fs1 then fsRemoveL tmpThumbnailPath fs1 else fs1
  { st with fs := fs2 }

/-- The characters of the fixed replacement `'_thumbnail.jpg'`
(line 167). -/
def thumbSuffix : List Char := "_thumbnail.jpg".toList

/-- A character matched by `[^/.]` in the regex `/\.[^/.]+$/`. -/
def isExtChar (c : Char) : Bool := c != '.' && c != '/'

/-- `filepath.replace(/\.[^/.]+$/, '_thumbnail.jpg')` (line 167) on the
character list: the regex matches exactly when the string ends in a dot
followed by one or more non-dot, non-slash characters, and any match is
that final segment; with no match, `replace` returns the string
unchanged.  (`rev.dropWhile isExtChar` is the remainder of the reversed
string after the candidate extension `ext := rev.takeWhile isExtChar`.) -/
def thumbnailKeyList (cs : List Char) : List Char :=
  match cs.reverse.dropWhile isExtChar with
  | '.' :: stemRev =>
    if (cs.reverse.takeWhile isExtChar).isEmpty then cs
    else stemRev.reverse ++ thumbSuffix
  | _ => cs

/-- The destination key derived from the source key (line 167). -/
def thumbnailKeyOf (filepath : String) : String :=
  String.mk (thumbnailKeyList filepath.toList)

/-- Whether the regex `/\.[^/.]+$/` matches the key at all, i.e. the key
ends in a (dot, non-empty dotless slashless tail) extension. -/
def hasExtL (cs : List Char) : Bool :=
  match cs.reverse.dropWhile isExtChar with
  | '.' :: _ => !(cs.reverse.takeWhile isExtChar).isEmpty
  | _ => false

/-- Oracles for the external collaborators, fixed for one invocation:
`JSON.parse` (`none` = it throws, with `parseErr` the thrown error), the
store's GetObject/PutObject outcomes, the staging write, and the
frame-extraction outcome. -/
structure Env where
  parseJson : String → Option ReqBody
  parseErr : String → JsError
  s3Get : String → String → Except JsError Unit
  fileWrite : Except JsError Unit
  extract : Except JsError Unit
  s3Put : String → String → Except JsError Unit

/-- The TypeError thrown by destructuring an `undefined` body at
line 108. -/
def undefinedBodyError : JsError :=
  ⟨"Cannot destructure property of undefined", "TypeError"⟩

/-- The validation error thrown at line 112. -/
def missingParamsError : JsError :=
  ⟨"Missing required parameters: bucket and filepath",
   "Error: Missing required parameters: bucket and filepath"⟩

/-- Line 105: `typeof event.body === 'string' ? JSON.parse(event.body)
: event.body`, combined with the destructuring at line 108 throwing on
an `undefined` body. -/
def parseBody (env : Env) (ev : EventBody) : Except JsError ReqBody :=
  match ev with
  | .missing => .error undefinedBodyError
  | .str s =>
    match env.parseJson s with
    | some b => .ok b
    | none => .error (env.parseErr s)
  | .obj b => .ok b

/-- The post-validation stage chain of the try block (lines 115-197):
GetObject (line 128), stage the video (lines 132-143; the write stream
creates the file before piping), extract one frame with timestamp `50%`
at size `360x640` (lines 147-163; on success the tool has written the
thumbnail), PutObject under the derived key with content type
`image/jpeg` (lines 167-177), then the two unguarded `unlinkSync` calls
(lines 182-183).  The returned value is the derived `thumbnailKey`. -/
def pipeline (env : Env) (bucket filepath : String) (st : HState) :
    Except JsError String × HState :=
  let st1 : HState := { st with ops := st.ops ++ [Op.getObj bucket filepath] }
  match env.s3Get bucket filepath with
  | .error e => (.error e, st1)
  | .ok _ =>
    let st2 : HState := { st1 with fs := fsAddL tmpVideoPath st1.fs }
    match env.fileWrite with
    | .error e => (.error e, st2)
    | .ok _ =>
      let st3 : HState :=
        { st2 with ops := st2.ops ++ [Op.extractFrame tmpVideoPath "50%" "360x640"] }
      match env.extract with
      | .error e => (.error e, st3)
      | .ok _ =>
        let st4 : HState := { st3 with fs := fsAddL tmpThumbnailPath st3.fs }
        let thumbnailKey := thumbnailKeyOf filepath
        let st5 : HState :=
          { st4 with ops := st4.ops ++ [Op.putObj bucket thumbnailKey "image/jpeg"] }
        match env.s3Put bucket thumbnailKey with
        | .error e => (.error e, st5)
        | .ok _ =>
          let st6 : HState :=
            { st5 with store := storePut bucket thumbnailKey "image/jpeg" st5.store }
          match unlinkSyncL tmpVideoPath st6.fs with
          | .error e => (.error e, st6)
          | .ok fs7 =>
            let st7 : HState := { st6 with fs := fs7 }
            match unlinkSyncL tmpThumbnailPath st7.fs with
            | .error e => (.error e, st7)
            | .ok fs8 => (.ok thumbnailKey, { st7 with fs := fs8 })

/-- The whole try block (lines 103-197): parse, validate (line 111),
then run the stage chain. -/
def runTry (env : Env) (ev : EventBody) (st : HState) : Except JsError String × HState :=
  match parseBody env ev with
  | .error e => (.error e, st)
  | .ok body =>
    if falsy body.bucket || falsy body.filepath then (.error missingParamsError, st)
    else pipeline env (body.bucket.getD "") (body.filepath.getD "") st

/-- The JSON response body: the success shape of lines 193-196 or the
failure shape of lines 219-223. -/
inductive RespBody where
  | success (message thumbnailPath : String)
  | failure (message error stack : String)
  deriving Repr, DecidableEq

/-- The structured response returned by the handler. -/
structure Response where
  statusCode : Nat
  headers : List (String × String)
  body : RespBody
  deriving Repr, DecidableEq

/-- The headers attached to both response shapes (lines 189-192 and
215-218). -/
def corsHeaders : List (String × String) :=
  [("Content-Type", "application/json"), ("Access-Control-Allow-Origin", "*")]

/-- `exports.handler` (lines 100-226): the try block, with the catch
block performing guarded cleanup and building the 500 response from the
caught error. -/
def handler (env : Env) (ev : EventBody) (st : HState) : Response × HState :=
  match runTry env ev st with
  | (.ok thumbnailKey, st1) =>
    (⟨200, corsHeaders, .success "Thumbnail generated successfully" thumbnailKey⟩, st1)
  | (.error e, st1) =>
    (⟨500, corsHeaders, .failure "Error generating thumbnail" e.message e.stack⟩,
     cleanupTmp st1)

/-- One entry of `metadata.streams` as ffprobe reports it: its kind and,
for video streams, pixel width and height (`none` models an `undefined`
property, as on audio streams). -/
structure StreamInfo where
  codec_type : String
  width : Option Int
  height : Option Int
  deriving Repr, DecidableEq

/-- The metadata object passed to the ffprobe callback. -/
structure ProbeMetadata where
  streams : List StreamInfo
  deriving Repr, DecidableEq

/-- `getVideoDimensions` (src/index.js lines 50-57): run ffprobe
(modelled as an oracle from the path to its outcome); reject with the
reported error, otherwise resolve with `metadata.streams[0]` — which is
`undefined` (here `none`) when the stream list is empty. -/
def getVideoDimensions (probe : String → Except JsError ProbeMetadata)
    (inputPath : String) : Except JsError (Option StreamInfo) :=
  match probe inputPath with
  | .error err => .error err
  | .ok metadata => .ok metadata.streams.head?

/-- The TypeError thrown by `const { width, height } = stream` at
line 62 when `stream` is `undefined`. -/
def undefinedStreamError : JsError :=
  ⟨"Cannot destructure property of undefined stream", "TypeError"⟩

/-- Line 62 of `generateThumbnail`: destructure width and height from
the resolved stream; throws when the stream is `undefined`. -/
def readStreamDims : Option StreamInfo → Except JsError (Option Int × Option Int)
  | none => .error undefinedStreamError
  | some s => .ok (s.width, s.height)

/-- The inspection prefix of `generateThumbnail` (lines 61-62):
`getVideoDimensions` followed by the width/height destructuring. -/
def inspectDims (probe : String → Except JsError ProbeMetadata)
    (inputPath : String) : Except JsError (Option Int × Option Int) :=
  (getVideoDimensions probe inputPath).bind readStreamDims

/-- Number of video streams in probed metadata (used only to state the
zero-video-streams condition; the source never inspects `codec_type`). -/
def countVideoStreams (m : ProbeMetadata) : Nat :=
  (m.streams.filter (fun s => s.codec_type == "video")).length

/-- JS `Math.round` on the modelled reals: half rounds toward positive
infinity. -/
def jsRound (x : ℚ) : ℤ := Int.floor (x + 1 / 2)

/-- The thumbnail-dimension calculation of `generateThumbnail`
(src/index.js lines 64-78): base width 360, base height
`Math.round(width * 16 / 9)`; when the source height/width ratio is more
than 0.1 away from 16/9, recompute height from the kept width (ratio
above target) or width from the kept height (ratio below target). -/
def thumbDims (w h : ℚ) : ℤ × ℤ :=
  let width : ℤ := 360
  let height : ℤ := jsRound ((360 : ℚ) * 16 / 9)
  let ratioSrc : ℚ := h / w
  let ratioTgt : ℚ := 16 / 9
  if 1 / 10 < |ratioSrc - ratioTgt| then
    if ratioTgt < ratioSrc then
      (width, jsRound ((width : ℚ) * h / w))
    else
      (jsRound ((height : ℚ) * w / h), height)
  else
    (width, height)

/-- Classifier for PutObject operations in the trace. -/
def isPutOp : Op → Bool
  | .putObj _ _ _ => true
  | _ => false

/-- A concrete valid request body. -/
def bodyOk : ReqBody := ⟨some "test-bucket", some "videos/a.mp4"⟩

/-- A concrete environment in which parsing yields `bodyOk` and every
external stage succeeds. -/
def envOk : Env where
  parseJson := fun _ => some bodyOk
  parseErr := fun _ => ⟨"Unexpected token", "SyntaxError: Unexpected token"⟩
  s3Get := fun _ _ => .ok ()
  fileWrite := .ok ()
  extract := .ok ()
  s3Put := fun _ _ => .ok ()

/-- A concrete environment whose frame extraction fails. -/
def envExtractFail : Env :=
  { envOk with extract := .error ⟨"ffmpeg exited with code 1", "Error: ffmpeg exited with code 1"⟩ }

/-- The empty initial invocation state. -/
def st0 : HState := ⟨[], [], []⟩

/-- An audio stream as ffprobe reports it: no width or height. -/
def audioStream : StreamInfo := ⟨"audio", none, none⟩

/-- Probed metadata of an audio-only file: one stream, zero video
streams. -/
def audioOnlyMeta : ProbeMetadata := ⟨[audioStream]⟩

/-- A probe oracle for an audio-only file: ffprobe parses it fine and
reports its single audio stream. -/
def audioProbe : String → Except JsError ProbeMetadata := fun _ => .ok audioOnlyMeta

theorem mem_fsAddL_self (p : String) (fs : List String) : p ∈ fsAddL p fs := by
  unfold fsAddL
  split
  · assumption
  · simp

theorem mem_fsAddL_of_mem {q : String} (p : String) {fs : List String} (h : q ∈ fs) :
    q ∈ fsAddL p fs := by
  unfold fsAddL
  split
  · exact h
  · exact List.mem_append_left _ h

theorem not_mem_fsRemoveL_self (p : String) (fs : List String) : p ∉ fsRemoveL p fs := by
  unfold fsRemoveL
  simp

theorem mem_fsRemoveL_of_mem_ne {q p : String} {fs : List String} (hq : q ∈ fs)
    (hne : q ≠ p) : q ∈ fsRemoveL p fs := by
  unfold fsRemoveL
  simp [hq, hne]

theorem not_mem_fsRemoveL_of_not_mem {q p : String} {fs : List String} (h : q ∉ fs) :
    q ∉ fsRemoveL p fs := by
  unfold fsRemoveL
  intro hc
  exact h (List.mem_filter.mp hc).1

theorem unlinkSyncL_ok {p : String} {fs fs2 : List String}
    (h : unlinkSyncL p fs = .ok fs2) : fs2 = fsRemoveL p fs := by
  unfold unlinkSyncL at h
  split at h
  · cases h
    rfl
  · cases h

theorem cleanupTmp_clears (st : HState) :
    tmpVideoPath ∉ (cleanupTmp st).fs ∧ tmpThumbnailPath ∉ (cleanupTmp st).fs ∧
    (cleanupTmp st).ops = st.ops ∧ (cleanupTmp st).store = st.store := by
  have h1 : tmpVideoPath ∉
      (if tmpVideoPath ∈ st.fs then fsRemoveL tmpVideoPath st.fs else st.fs) := by
    split
    · exact not_mem_fsRemoveL_self _ _
    · assumption
  refine ⟨?_, ?_, rfl, rfl⟩
  · show tmpVideoPath ∉
      (if tmpThumbnailPath ∈ (if tmpVideoPath ∈ st.fs then fsRemoveL tmpVideoPath st.fs else st.fs)
        then fsRemoveL tmpThumbnailPath
          (if tmpVideoPath ∈ st.fs then fsRemoveL tmpVideoPath st.fs else st.fs)
        else (if tmpVideoPath ∈ st.fs then fsRemoveL tmpVideoPath st.fs else st.fs))
    generalize hg : (if tmpVideoPath ∈ st.fs then fsRemoveL tmpVideoPath st.fs else st.fs) = fs1 at h1 ⊢
    split
    · exact not_mem_fsRemoveL_of_not_mem h1
    · exact h1
  · show tmpThumbnailPath ∉
      (if tmpThumbnailPath ∈ (if tmpVideoPath ∈ st.fs then fsRemoveL tmpVideoPath st.fs else st.fs)
        then fsRemoveL tmpThumbnailPath
          (if tmpVideoPath ∈ st.fs then fsRemoveL tmpVideoPath st.fs else st.fs)
        else (if tmpVideoPath ∈ st.fs then fsRemoveL tmpVideoPath st.fs else st.fs))
    generalize (if tmpVideoPath ∈ st.fs then fsRemoveL tmpVideoPath st.fs else st.fs) = fs1
    split
    · exact not_mem_fsRemoveL_self _ _
    · assumption

theorem cleanupTmp_noop {st : HState} (h1 : tmpVideoPath ∉ st.fs)
    (h2 : tmpThumbnailPath ∉ st.fs) : cleanupTmp st = st := by
  simp only [cleanupTmp]
  rw [if_neg h1, if_neg h2]

theorem filter_not_filter {α : Type} (p : α → Bool) (l : List α) :
    List.filter p (List.filter (fun a => !(p a)) l) = [] := by
  induction l with
  | nil => rfl
  | cons x xs ih =>
    by_cases hx : p x = true
    · simp [List.filter_cons, hx, ih]
    · simp [List.filter_cons, hx, ih]

theorem storeGet_storePut_self (b k ct : String) (store : List (String × String × String)) :
    storeGet b k (storePut b k ct store) = some ct := by
  unfold storeGet storePut
  rw [List.filter_append, filter_not_filter (fun e => e.1 == b && e.2.1 == k) store]
  simp

theorem pipeline_success (env : Env) (bucket filepath : String) (st : HState)
    (hget : env.s3Get bucket filepath = .ok ())
    (hwrite : env.fileWrite = .ok ())
    (hext : env.extract = .ok ())
    (hput : env.s3Put bucket (thumbnailKeyOf filepath) = .ok ()) :
    pipeline env bucket filepath st =
      (.ok (thumbnailKeyOf filepath),
        { fs := fsRemoveL tmpThumbnailPath (fsRemoveL tmpVideoPath
            (fsAddL tmpThumbnailPath (fsAddL tmpVideoPath st.fs))),
          ops := st.ops ++ [Op.getObj bucket filepath,
            Op.extractFrame tmpVideoPath "50%" "360x640",
            Op.putObj bucket (thumbnailKeyOf filepath) "image/jpeg"],
          store := storePut bucket (thumbnailKeyOf filepath) "image/jpeg" st.store }) := by
  have hmem1 : tmpVideoPath ∈ fsAddL tmpThumbnailPath (fsAddL tmpVideoPath st.fs) :=
    mem_fsAddL_of_mem _ (mem_fsAddL_self _ _)
  have hmem2 : tmpThumbnailPath ∈
      fsRemoveL tmpVideoPath (fsAddL tmpThumbnailPath (fsAddL tmpVideoPath st.fs)) :=
    mem_fsRemoveL_of_mem_ne (mem_fsAddL_self _ _) (by decide)
  simp only [pipeline, hget, hwrite, hext, hput, unlinkSyncL, if_pos hmem1, if_pos hmem2]
  simp [List.append_assoc]

theorem pipeline_extract_error (env : Env) (bucket filepath : String) (st : HState)
    (e : JsError)
    (hget : env.s3Get bucket filepath = .ok ())
    (hwrite : env.fileWrite = .ok ())
    (hext : env.extract = .error e) :
    pipeline env bucket filepath st =
      (.error e,
        { fs := fsAddL tmpVideoPath st.fs,
          ops := st.ops ++ [Op.getObj bucket filepath,
            Op.extractFrame tmpVideoPath "50%" "360x640"],
          store := st.store }) := by
  simp only [pipeline, hget, hwrite, hext]
  simp [List.append_assoc]

theorem runTry_valid (env : Env) (st : HState) (bucket filepath : String)
    (hb : bucket ≠ "") (hf : filepath ≠ "") :
    runTry env (EventBody.obj ⟨some bucket, some filepath⟩) st =
      pipeline env bucket filepath st := by
  have hcond : (falsy (some bucket) || falsy (some filepath)) = false := by
    simp [falsy, hb, hf]
  simp [runTry, parseBody, hcond]

theorem runTry_invalid (env : Env) (st : HState) (b f : Option String)
    (h : falsy b = true ∨ falsy f = true) :
    runTry env (EventBody.obj ⟨b, f⟩) st = (.error missingParamsError, st) := by
  have hcond : (falsy b || falsy f) = true := by
    rcases h with h | h <;> simp [h]
  simp [runTry, parseBody, hcond]

theorem pipeline_ok_no_staged (env : Env) (bucket filepath : String) (st : HState)
    (k : String) (st1 : HState) (h : pipeline env bucket filepath st = (.ok k, st1)) :
    tmpVideoPath ∉ st1.fs ∧ tmpThumbnailPath ∉ st1.fs := by
  simp only [pipeline] at h
  split at h
  · simp at h
  · split at h
    · simp at h
    · split at h
      · simp at h
      · split at h
        · simp at h
        · split at h
          · simp at h
          · split at h
            · simp at h
            · rename_i hA s2 fsB hB
              simp only [Prod.mk.injEq] at h
              rw [← h.2, unlinkSyncL_ok hB, unlinkSyncL_ok hA]
              exact ⟨not_mem_fsRemoveL_of_not_mem (not_mem_fsRemoveL_self _ _),
                not_mem_fsRemoveL_self _ _⟩

theorem runTry_ok_no_staged (env : Env) (ev : EventBody) (st : HState)
    (k : String) (st1 : HState) (h : runTry env ev st = (.ok k, st1)) :
    tmpVideoPath ∉ st1.fs ∧ tmpThumbnailPath ∉ st1.fs := by
  unfold runTry at h
  rcases hp : parseBody env ev with e | body
  · simp only [hp] at h
    simp at h
  · simp only [hp] at h
    by_cases hc : (falsy body.bucket || falsy body.filepath) = true
    · rw [if_pos hc] at h
      simp at h
    · rw [if_neg hc] at h
      exact pipeline_ok_no_staged env _ _ st k st1 h

theorem thumbnailKeyList_eq_of_dot (cs stemRev : List Char)
    (hd : cs.reverse.dropWhile isExtChar = '.' :: stemRev) :
    thumbnailKeyList cs =
      if (cs.reverse.takeWhile isExtChar).isEmpty then cs
      else stemRev.reverse ++ thumbSuffix := by
  unfold thumbnailKeyList
  rw [hd]
  split
  · rename_i sr heq
    simp only [List.cons.injEq, true_and] at heq
    rw [heq]
  · rename_i hne
    exact absurd rfl (hne stemRev)

theorem thumbnailKeyList_eq_nil (cs : List Char)
    (hd : cs.reverse.dropWhile isExtChar = []) : thumbnailKeyList cs = cs := by
  unfold thumbnailKeyList
  rw [hd]

theorem thumbnailKeyList_eq_default (cs stemRev : List Char) (c : Char)
    (hd : cs.reverse.dropWhile isExtChar = c :: stemRev) (hc : c ≠ '.') :
    thumbnailKeyList cs = cs := by
  unfold thumbnailKeyList
  rw [hd]
  split
  · rename_i sr heq
    simp only [List.cons.injEq] at heq
    exact absurd heq.1 hc
  · rfl

theorem hasExtL_eq_of_dot (cs stemRev : List Char)
    (hd : cs.reverse.dropWhile isExtChar = '.' :: stemRev) :
    hasExtL cs = !(cs.reverse.takeWhile isExtChar).isEmpty := by
  unfold hasExtL
  rw [hd]
  split
  · rfl
  · rename_i hne
    exact absurd rfl (hne stemRev)

theorem hasExtL_eq_nil (cs : List Char)
    (hd : cs.reverse.dropWhile isExtChar = []) : hasExtL cs = false := by
  unfold hasExtL
  rw [hd]

theorem hasExtL_eq_default (cs stemRev : List Char) (c : Char)
    (hd : cs.reverse.dropWhile isExtChar = c :: stemRev) (hc : c ≠ '.') :
    hasExtL cs = false := by
  unfold hasExtL
  rw [hd]
  split
  · rename_i sr heq
    simp only [List.cons.injEq] at heq
    exact absurd heq.1 hc
  · rfl

theorem thumbnailKeyList_spec (cs : List Char) :
    (hasExtL cs = true →
      (∃ stem : List Char, thumbnailKeyList cs = stem ++ thumbSuffix) ∧
        thumbnailKeyList cs ≠ cs) ∧
    (hasExtL cs = false → thumbnailKeyList cs = cs) := by
  rcases hd : cs.reverse.dropWhile isExtChar with _ | ⟨c, stemRev⟩
  · exact ⟨fun hx => absurd hx (by rw [hasExtL_eq_nil cs hd]; simp),
      fun _ => thumbnailKeyList_eq_nil cs hd⟩
  · by_cases hc : c = '.'
    · subst hc
      by_cases he : (cs.reverse.takeWhile isExtChar).isEmpty = true
      · refine ⟨fun hx => absurd hx ?_, fun _ => ?_⟩
        · rw [hasExtL_eq_of_dot cs stemRev hd, he]
          simp
        · rw [thumbnailKeyList_eq_of_dot cs stemRev hd, if_pos he]
      · have hkey : thumbnailKeyList cs = stemRev.reverse ++ thumbSuffix := by
          rw [thumbnailKeyList_eq_of_dot cs stemRev hd, if_neg he]
        have hcs : cs =
            stemRev.reverse ++ ('.' :: (cs.reverse.takeWhile isExtChar).reverse) := by
          conv_lhs => rw [← List.reverse_reverse cs,
            ← List.takeWhile_append_dropWhile (p := isExtChar) (l := cs.reverse), hd]
          rw [List.reverse_append, List.reverse_cons]
          simp [List.append_assoc]
        refine ⟨fun _ => ⟨⟨stemRev.reverse, hkey⟩, ?_⟩, fun hx => ?_⟩
        · rw [hkey]
          intro heq2
          rw [hcs] at heq2
          have hsuf := List.append_cancel_left heq2
          have hh : thumbSuffix.head? = some '.' := by rw [hsuf]; rfl
          exact absurd hh (by decide)
        · exfalso
          rw [hasExtL_eq_of_dot cs stemRev hd] at hx
          apply he
          cases hb : (cs.reverse.takeWhile isExtChar).isEmpty
          · rw [hb] at hx
            simp at hx
          · rfl
    · exact ⟨fun hx => absurd hx
          (by rw [hasExtL_eq_default cs stemRev c hd hc]; simp),
        fun _ => thumbnailKeyList_eq_default cs stemRev c hd hc⟩

/-- Claim C2: for every input event — including a missing body, a string
body that fails to parse, and any stage failure — the handler never
raises past its own boundary: it is a total function returning a
structured response, and that response is either a 200 success or a 500
failure whose JSON body carries a message string, an error string, and a
stack string. -/
theorem handler_total_response (env : Env) (ev : EventBody) (st : HState) :
    ((handler env ev st).1.statusCode = 200 ∧
      ∃ m t, (handler env ev st).1.body = RespBody.success m t) ∨
    ((handler env ev st).1.statusCode = 500 ∧
      ∃ m er sk, (handler env ev st).1.body = RespBody.failure m er sk) := by
  unfold handler
  rcases h : runTry env ev st with ⟨res, st1⟩
  cases res with
  | error e =>
    right
    simp only [h]
    exact ⟨by trivial, _, _, _, rfl⟩
  | ok k =>
    left
    simp only [h]
    exact ⟨by trivial, _, _, rfl⟩

/-- Claim C10: every response the handler returns, success and failure
alike, carries exactly the headers Content-Type: application/json and
Access-Control-Allow-Origin: *; in particular the permissive
cross-origin header is present on the 500 failure envelope too. -/
theorem handler_headers_always (env : Env) (ev : EventBody) (st : HState) :
    (handler env ev st).1.headers =
      [("Content-Type", "application/json"), ("Access-Control-Allow-Origin", "*")] := by
  unfold handler
  rcases h : runTry env ev st with ⟨res, st1⟩
  cases res with
  | error e =>
    simp only [h]
    rfl
  | ok k =>
    simp only [h]
    rfl

/-- Claim C9: for every payload p, invoking the handler with the body
given as a string that structured-data parsing turns into p produces
exactly the same response and final state as invoking it with the body
given directly as the parsed structure p. -/
theorem handler_body_forms_agree (env : Env) (st : HState) (s : String) (p : ReqBody)
    (h : env.parseJson s = some p) :
    handler env (EventBody.str s) st = handler env (EventBody.obj p) st := by
  simp only [handler, runTry, parseBody, h]

/-- Witness for C9 at a concrete environment and payload. -/
theorem handler_body_forms_agree_witness :
    handler envOk (EventBody.str "x") st0 = handler envOk (EventBody.obj bodyOk) st0 :=
  handler_body_forms_agree envOk st0 "x" bodyOk rfl

/-- Claim C3: for every request in which bucket or filepath is absent or
empty, the handler returns a status-failure (500) response built from
the validation error, and the operation trace — which records exactly
the object-store (get/put) and video-decoding (probe/extract) calls — is
unchanged, as is the store: no store or decoding call is performed. -/
theorem handler_invalid_no_ops (env : Env) (st : HState) (b f : Option String)
    (h : falsy b = true ∨ falsy f = true) :
    (handler env (EventBody.obj ⟨b, f⟩) st).1.statusCode = 500 ∧
    (handler env (EventBody.obj ⟨b, f⟩) st).1.body =
      RespBody.failure "Error generating thumbnail" missingParamsError.message
        missingParamsError.stack ∧
    (handler env (EventBody.obj ⟨b, f⟩) st).2.ops = st.ops ∧
    (handler env (EventBody.obj ⟨b, f⟩) st).2.store = st.store := by
  have hrun := runTry_invalid env st b f h
  unfold handler
  simp only [hrun]
  exact ⟨by trivial, by trivial, (cleanupTmp_clears st).2.2.1, (cleanupTmp_clears st).2.2.2⟩

/-- Witness for C3: a request with an empty bucket and an absent
filepath. -/
theorem handler_invalid_no_ops_witness :
    (handler envOk (EventBody.obj ⟨some "", none⟩) st0).1.statusCode = 500 ∧
    (handler envOk (EventBody.obj ⟨some "", none⟩) st0).1.body =
      RespBody.failure "Error generating thumbnail" missingParamsError.message
        missingParamsError.stack ∧
    (handler envOk (EventBody.obj ⟨some "", none⟩) st0).2.ops = st0.ops ∧
    (handler envOk (EventBody.obj ⟨some "", none⟩) st0).2.store = st0.store :=
  handler_invalid_no_ops envOk st0 (some "") none (Or.inl (by decide))

/-- Claim C7: on every return path, success or failure, the handler has
attempted removal of both staged files before returning — afterwards
neither staged path remains — and the guarded catch-path cleanup is a
no-op that never raises when the staged files do not exist (it is a
total function that leaves the state unchanged). -/
theorem handler_cleanup_always (env : Env) (ev : EventBody) (st : HState) :
    tmpVideoPath ∉ (handler env ev st).2.fs ∧
    tmpThumbnailPath ∉ (handler env ev st).2.fs ∧
    (∀ st1 : HState, tmpVideoPath ∉ st1.fs → tmpThumbnailPath ∉ st1.fs →
      cleanupTmp st1 = st1) := by
  have hmain : tmpVideoPath ∉ (handler env ev st).2.fs ∧
      tmpThumbnailPath ∉ (handler env ev st).2.fs := by
    unfold handler
    rcases h : runTry env ev st with ⟨res, st1⟩
    cases res with
    | error e =>
      simp only [h]
      exact ⟨(cleanupTmp_clears st1).1, (cleanupTmp_clears st1).2.1⟩
    | ok k =>
      simp only [h]
      exact runTry_ok_no_staged env ev st k st1 h
  exact ⟨hmain.1, hmain.2, fun st1 h1 h2 => cleanupTmp_noop h1 h2⟩

/-- Witness for C7 at a concrete invocation and a concrete state with no
staged files. -/
theorem handler_cleanup_always_witness :
    tmpVideoPath ∉ (handler envOk (EventBody.obj bodyOk) st0).2.fs ∧
    cleanupTmp st0 = st0 :=
  ⟨(handler_cleanup_always envOk (EventBody.obj bodyOk) st0).1,
   (handler_cleanup_always envOk (EventBody.obj bodyOk) st0).2.2 st0 (by decide) (by decide)⟩

/-- Claim C1: for every valid request (non-empty bucket and filepath) on
which download, extraction, and upload all succeed, the handler returns
a status-success (200) response whose thumbnailPath is the destination
key derived from the source key by replacing its file extension with
'_thumbnail.jpg'; the operations performed during the invocation contain
exactly one PutObject — under that key, with content type image/jpeg —
and afterwards the store holds that object; concretely, source key
videos/a.mp4 yields destination key videos/a_thumbnail.jpg. -/
theorem handler_valid_success (env : Env) (st : HState) (bucket filepath : String)
    (hb : bucket ≠ "") (hf : filepath ≠ "")
    (hget : env.s3Get bucket filepath = .ok ())
    (hwrite : env.fileWrite = .ok ())
    (hext : env.extract = .ok ())
    (hput : env.s3Put bucket (thumbnailKeyOf filepath) = .ok ()) :
    (handler env (EventBody.obj ⟨some bucket, some filepath⟩) st).1.statusCode = 200 ∧
    (handler env (EventBody.obj ⟨some bucket, some filepath⟩) st).1.body =
      RespBody.success "Thumbnail generated successfully" (thumbnailKeyOf filepath) ∧
    ((handler env (EventBody.obj ⟨some bucket, some filepath⟩) st).2.ops.drop
        st.ops.length).filter isPutOp =
      [Op.putObj bucket (thumbnailKeyOf filepath) "image/jpeg"] ∧
    storeGet bucket (thumbnailKeyOf filepath)
      (handler env (EventBody.obj ⟨some bucket, some filepath⟩) st).2.store =
      some "image/jpeg" ∧
    thumbnailKeyOf "videos/a.mp4" = "videos/a_thumbnail.jpg" := by
  have hrun := runTry_valid env st bucket filepath hb hf
  have hpipe := pipeline_success env bucket filepath st hget hwrite hext hput
  unfold handler
  simp only [hrun, hpipe]
  refine ⟨by trivial, by trivial, ?_, ?_, by decide⟩
  · rw [List.drop_left]
    rfl
  · exact storeGet_storePut_self _ _ _ _

/-- Witness for C1 at a concrete environment, request, and empty initial
state. -/
theorem handler_valid_success_witness :
    (handler envOk (EventBody.obj ⟨some "test-bucket", some "videos/a.mp4"⟩) st0).1.statusCode
      = 200 ∧
    (handler envOk (EventBody.obj ⟨some "test-bucket", some "videos/a.mp4"⟩) st0).1.body =
      RespBody.success "Thumbnail generated successfully" (thumbnailKeyOf "videos/a.mp4") ∧
    ((handler envOk (EventBody.obj ⟨some "test-bucket", some "videos/a.mp4"⟩) st0).2.ops.drop
        st0.ops.length).filter isPutOp =
      [Op.putObj "test-bucket" (thumbnailKeyOf "videos/a.mp4") "image/jpeg"] ∧
    storeGet "test-bucket" (thumbnailKeyOf "videos/a.mp4")
      (handler envOk (EventBody.obj ⟨some "test-bucket", some "videos/a.mp4"⟩) st0).2.store =
      some "image/jpeg" ∧
    thumbnailKeyOf "videos/a.mp4" = "videos/a_thumbnail.jpg" :=
  handler_valid_success envOk st0 "test-bucket" "videos/a.mp4"
    (by decide) (by decide) rfl rfl rfl rfl

/-- Claim C6: for every invocation on which the decoding tool reports an
error during extraction, the handler returns a status-failure (500)
response built from that error, no PutObject appears among the
operations performed, and the store — in particular the entry under the
destination key — is unchanged. -/
theorem handler_extract_error_no_put (env : Env) (st : HState)
    (bucket filepath : String) (e : JsError)
    (hb : bucket ≠ "") (hf : filepath ≠ "")
    (hget : env.s3Get bucket filepath = .ok ())
    (hwrite : env.fileWrite = .ok ())
    (hext : env.extract = .error e) :
    (handler env (EventBody.obj ⟨some bucket, some filepath⟩) st).1.statusCode = 500 ∧
    (handler env (EventBody.obj ⟨some bucket, some filepath⟩) st).1.body =
      RespBody.failure "Error generating thumbnail" e.message e.stack ∧
    (handler env (EventBody.obj ⟨some bucket, some filepath⟩) st).2.ops.filter isPutOp =
      st.ops.filter isPutOp ∧
    (handler env (EventBody.obj ⟨some bucket, some filepath⟩) st).2.store = st.store := by
  have hrun := runTry_valid env st bucket filepath hb hf
  have hpipe := pipeline_extract_error env bucket filepath st e hget hwrite hext
  unfold handler
  simp only [hrun, hpipe]
  refine ⟨by trivial, by trivial, ?_, ?_⟩
  · rw [(cleanupTmp_clears _).2.2.1]
    rw [List.filter_append]
    simp [isPutOp]
  · exact (cleanupTmp_clears _).2.2.2

/-- Witness for C6 at a concrete environment whose extraction fails. -/
theorem handler_extract_error_no_put_witness :
    (handler envExtractFail (EventBody.obj ⟨some "test-bucket", some "videos/a.mp4"⟩)
        st0).1.statusCode = 500 ∧
    (handler envExtractFail (EventBody.obj ⟨some "test-bucket", some "videos/a.mp4"⟩)
        st0).1.body =
      RespBody.failure "Error generating thumbnail" "ffmpeg exited with code 1"
        "Error: ffmpeg exited with code 1" ∧
    (handler envExtractFail (EventBody.obj ⟨some "test-bucket", some "videos/a.mp4"⟩)
        st0).2.ops.filter isPutOp = st0.ops.filter isPutOp ∧
    (handler envExtractFail (EventBody.obj ⟨some "test-bucket", some "videos/a.mp4"⟩)
        st0).2.store = st0.store :=
  handler_extract_error_no_put envExtractFail st0 "test-bucket" "videos/a.mp4"
    ⟨"ffmpeg exited with code 1", "Error: ffmpeg exited with code 1"⟩
    (by decide) (by decide) rfl rfl rfl

/-- Claim C5: for every source geometry with positive dimensions, the
calculation starts from width 360 and height round(360 * 16/9) = 640;
when the source height/width ratio is within 0.1 of 16/9 the result is
exactly 360x640 (in particular for a 1080x1920 source), and otherwise
exactly one dimension is recomputed from the other at the source's
actual ratio: height from the kept width 360 when the ratio exceeds
16/9, width from the kept height 640 when it is below (a 1920x1080
source yields 1138x640). -/
theorem thumbDims_matches_spec (w h : ℚ) (hw : 0 < w) (hh : 0 < h) :
    jsRound ((360 : ℚ) * 16 / 9) = 640 ∧
    (|h / w - 16 / 9| ≤ 1 / 10 → thumbDims w h = (360, 640)) ∧
    thumbDims 1080 1920 = (360, 640) ∧
    (1 / 10 < |h / w - 16 / 9| → 16 / 9 < h / w →
      thumbDims w h = (360, jsRound ((360 : ℚ) * h / w))) ∧
    (1 / 10 < |h / w - 16 / 9| → h / w < 16 / 9 →
      thumbDims w h = (jsRound ((640 : ℚ) * w / h), 640)) ∧
    thumbDims 1920 1080 = (1138, 640) := by
  have hbase : jsRound ((360 : ℚ) * 16 / 9) = 640 := by
    unfold jsRound
    rw [Int.floor_eq_iff]
    norm_num
  refine ⟨hbase, ?_, ?_, ?_, ?_, ?_⟩
  · intro hle
    unfold thumbDims
    rw [if_neg (not_lt.mpr hle), hbase]
  · unfold thumbDims
    rw [if_neg (by norm_num), hbase]
  · intro hgt hr
    unfold thumbDims
    rw [if_pos hgt, if_pos hr]
    norm_num
  · intro hgt hr
    unfold thumbDims
    rw [if_pos hgt, if_neg (not_lt.mpr hr.le), hbase]
    norm_num
  · unfold thumbDims
    rw [if_pos (by rw [abs_of_nonpos (by norm_num)]; norm_num),
      if_neg (by norm_num), hbase]
    norm_num
    unfold jsRound
    rw [Int.floor_eq_iff]
    norm_num

/-- Witness for C5 at the two geometries named by the specification. -/
theorem thumbDims_matches_spec_witness :
    thumbDims 1080 1920 = (360, 640) ∧ thumbDims 1920 1080 = (1138, 640) ∧
    thumbDims 1080 1920 = (360, 640) ∧ jsRound ((360 : ℚ) * 16 / 9) = 640 :=
  ⟨(thumbDims_matches_spec 1080 1920 (by norm_num) (by norm_num)).2.2.1,
   (thumbDims_matches_spec 1080 1920 (by norm_num) (by norm_num)).2.2.2.2.2,
   (thumbDims_matches_spec 1080 1920 (by norm_num) (by norm_num)).2.1 (by norm_num),
   (thumbDims_matches_spec 1080 1920 (by norm_num) (by norm_num)).1⟩

/-- Counterexample to claim C4 as stated: for the extensionless source
key "video" the derived destination key equals the source key itself —
the regex does not match, `replace` returns the string unchanged, and no
'_thumbnail.jpg' suffix is attached. -/
theorem thumbnailKey_noext_counterexample : thumbnailKeyOf "video" = "video" := by decide

/-- Claim C4 (amended): for every source key that ends in a file
extension (a final dot followed by at least one character that is
neither a dot nor a slash), the destination key carries the
'_thumbnail.jpg' suffix and differs from the source key; for every
source key without such an extension, the destination key equals the
source key unchanged. -/
theorem thumbnailKeyOf_spec (s : String) :
    (hasExtL s.toList = true →
      (∃ stem : List Char, (thumbnailKeyOf s).toList = stem ++ thumbSuffix) ∧
        thumbnailKeyOf s ≠ s) ∧
    (hasExtL s.toList = false → thumbnailKeyOf s = s) := by
  obtain ⟨h1, h2⟩ := thumbnailKeyList_spec s.toList
  constructor
  · intro hx
    obtain ⟨⟨stem, hs⟩, hne⟩ := h1 hx
    refine ⟨⟨stem, hs⟩, fun hcontra => hne ?_⟩
    exact congrArg String.toList hcontra
  · intro hx
    show String.mk (thumbnailKeyList s.toList) = s
    rw [h2 hx]
    rfl

/-- Witness for C4's amended statement: a key with an extension gains
the suffix and changes; the extensionless key "video" is returned
unchanged. -/
theorem thumbnailKeyOf_spec_witness :
    ((∃ stem : List Char, (thumbnailKeyOf "videos/a.mp4").toList = stem ++ thumbSuffix) ∧
      thumbnailKeyOf "videos/a.mp4" ≠ "videos/a.mp4") ∧
    thumbnailKeyOf "video" = "video" :=
  ⟨(thumbnailKeyOf_spec "videos/a.mp4").1 (by decide),
   (thumbnailKeyOf_spec "video").2 (by decide)⟩

/-- Counterexample to claim C8 as stated: probing an audio-only file —
zero video streams — succeeds, so `getVideoDimensions` resolves with the
(dimensionless) first stream instead of failing with an error, and the
subsequent width/height destructuring succeeds as well, yielding absent
dimensions. -/
theorem getVideoDimensions_zero_video_counterexample :
    countVideoStreams audioOnlyMeta = 0 ∧
    getVideoDimensions audioProbe "/tmp/input.mp4" = .ok (some audioStream) ∧
    inspectDims audioProbe "/tmp/input.mp4" = .ok (none, none) := by
  refine ⟨rfl, rfl, rfl⟩

/-- Claim C8 (amended): `getVideoDimensions` resolves with the first
stream of the probed metadata — from which the caller reads the pixel
width and height — and fails with an error exactly when the probe
itself reports one (unreadable or unparseable file); when a successful
probe reports no streams at all the subsequent destructuring of the
undefined first stream fails, but a successful probe whose first stream
merely lacks video dimensions does not make the inspection fail. -/
theorem getVideoDimensions_spec (probe : String → Except JsError ProbeMetadata)
    (p : String) :
    (∀ e, probe p = .error e → getVideoDimensions probe p = .error e) ∧
    (∀ m, probe p = .ok m → getVideoDimensions probe p = .ok m.streams.head?) ∧
    (∀ m, probe p = .ok m → m.streams = [] →
      inspectDims probe p = .error undefinedStreamError) ∧
    (∀ m s rest, probe p = .ok m → m.streams = s :: rest →
      inspectDims probe p = .ok (s.width, s.height)) := by
  refine ⟨?_, ?_, ?_, ?_⟩
  · intro e he
    unfold getVideoDimensions
    rw [he]
  · intro m hm
    unfold getVideoDimensions
    rw [hm]
  · intro m hm hs
    unfold inspectDims getVideoDimensions
    simp only [hm, hs]
    rfl
  · intro m s rest hm hs
    unfold inspectDims getVideoDimensions
    simp only [hm, hs]
    rfl

/-- Witness for C8's amended statement at the audio-only probe. -/
theorem getVideoDimensions_spec_witness :
    getVideoDimensions audioProbe "/tmp/input.mp4" = .ok audioOnlyMeta.streams.head? ∧
    inspectDims audioProbe "/tmp/input.mp4" = .ok (audioStream.width, audioStream.height) :=
  ⟨(getVideoDimensions_spec audioProbe "/tmp/input.mp4").2.1 audioOnlyMeta rfl,
   (getVideoDimensions_spec audioProbe "/tmp/input.mp4").2.2.2 audioOnlyMeta
     audioStream [] rfl rfl⟩
